import Mathlib

/-!
Verification of the audio decode-and-feature-extraction engine of the
audiolab-server repository (src/app/lib/audio).

Shallow embedding conventions:
- A waveform is a finite list of rational sample values.  The floating point
  arithmetic of the source is modelled with exact rationals; the dB
  computation, which applies a base-10 logarithm, is modelled over the reals.
- External library calls (librosa, pydub, numpy) are not code of this
  repository.  Each call site is modelled by a field of an input structure
  recording the outcome the library would return at that call site: an
  Option value is none exactly when the call raises.  All logic that the
  repository itself performs on those outcomes (ordering of fallback
  strategies, emptiness checks, normalisation divisors, thresholds,
  defaults, error messages) is translated directly from the source.
- numpy division of 0.0 by 0.0 yields nan with a warning, not an exception;
  rationals make it 0.  Every comparison the source performs on such a
  value is a strict greater-than against a positive threshold, which is
  false both for nan and for 0, so the embedded control flow agrees with
  the source on those degenerate inputs.
-/

/-- A decoded waveform: mono samples at some sample rate. -/
abbrev Waveform := List ℚ

/-- Sum, as librosa/numpy mean does, divided by length; mean of the empty
list is 0 by the rational convention 0 / 0 = 0. -/
def qMean (l : List ℚ) : ℚ := l.sum / (l.length : ℚ)

/-- Sum of absolute values, modelling np.sum(np.abs(x)). -/
def qSumAbs (l : List ℚ) : ℚ := (l.map (fun x => abs x)).sum

/-- Outcome of pydub AudioSegment.from_file at this file, after the
conditional set_channels(1) / set_frame_rate transforms the source applies
(both are pydub internals; the fields record what the repository code then
reads from the resulting segment object). -/
structure PydubSegment where
  channels : Nat
  frame_rate : Nat
  sample_width : Nat
  length_ms : Nat
  /-- get_array_of_samples of the transformed segment, before the
  normalisation that the repository performs itself. -/
  samples : List ℚ
deriving DecidableEq, Repr

/-- One audio file on disk together with the behaviour of every external
decode call the loader can make on it.  An Option field is none exactly
when that backend call raises at this file. -/
structure AudioFile where
  path : String
  /-- os.path.exists -/
  present : Bool
  /-- os.path.getsize, bytes -/
  size : Nat
  /-- Path(path).suffix.lower() -/
  ext : String
  /-- librosa.load(path, sr=target_sample_rate, mono=True) -/
  librosaTarget : Option Waveform
  /-- librosa.load(path, sr=None, mono=True): waveform and native rate -/
  librosaNative : Option (Waveform × Nat)
  /-- librosa.resample of the native-rate waveform to the target rate -/
  nativeResampled : Waveform
  /-- pydub AudioSegment.from_file plus channel/rate transforms -/
  pydubSeg : Option PydubSegment
  /-- librosa.load(path, sr=None, mono=True, duration=1.0): native rate -/
  librosaPartial : Option Nat
  /-- librosa.get_duration(path=path), seconds -/
  durationProbe : Option ℚ
deriving DecidableEq, Repr

/-- AudioLoader.target_sample_rate default used throughout the repository. -/
def target_sample_rate : Nat := 22050

/-- AudioLoader.supported_formats (audio_loader.py line 31). -/
def supported_formats : List String :=
  [".wav", ".mp3", ".flac", ".ogg", ".m4a", ".aac", ".wma"]

/-- Errors AudioLoader.load_audio can raise, each carrying the exact
message string the source formats. -/
inductive LoadError where
  | fileNotFound (msg : String)
  | unsupportedFormat (msg : String)
  | decodeFailed (msg : String)
deriving DecidableEq, Repr

/-- str(e) of the raised exception. -/
def LoadError.message : LoadError → String
  | .fileNotFound m => m
  | .unsupportedFormat m => m
  | .decodeFailed m => m

/-- Result of load_audio together with the number of decode strategies that
were actually invoked on the file contents (call-count instrumentation on
the decode backends, as the spec asks to verify). -/
instance {ε α : Type} [DecidableEq ε] [DecidableEq α] : DecidableEq (Except ε α) := fun
  | .error a, .error b =>
    if h : a = b then .isTrue (by rw [h])
    else .isFalse (by intro he; cases he; exact h rfl)
  | .error _, .ok _ => .isFalse (by intro h; cases h)
  | .ok _, .error _ => .isFalse (by intro h; cases h)
  | .ok a, .ok b =>
    if h : a = b then .isTrue (by rw [h])
    else .isFalse (by intro he; cases he; exact h rfl)

structure LoadResult where
  result : Except LoadError (Waveform × Nat)
  attempts : Nat
deriving DecidableEq, Repr

/-- AudioLoader._load_with_pydub, lines 94-117: the repository-side
normalisation of the pydub sample array.  sample_width 2 (16-bit) divides
by 32768.0, width 4 (32-bit) by 2147483648.0, anything else by 128.0; the
returned rate is the target rate. -/
def load_with_pydub (seg : PydubSegment) : Waveform × Nat :=
  (seg.samples.map (fun s =>
      s / (if seg.sample_width = 2 then (32768 : ℚ)
           else if seg.sample_width = 4 then 2147483648
           else 128)),
   target_sample_rate)

/-- Strategy 1 (lines 55-64): librosa at the target rate, forced mono.
Returns none when the call raised or the waveform is empty (the source
falls through in both cases). -/
def strategy1 (f : AudioFile) : Option (Waveform × Nat) :=
  match f.librosaTarget with
  | some w => if 0 < w.length then some (w, target_sample_rate) else none
  | none => none

/-- Strategy 2 (lines 67-73): pydub fallback via _load_with_pydub. -/
def strategy2 (f : AudioFile) : Option (Waveform × Nat) :=
  match f.pydubSeg with
  | some seg =>
      if 0 < (load_with_pydub seg).1.length then some (load_with_pydub seg)
      else none
  | none => none

/-- Strategy 3 (lines 76-90): librosa at the native rate, then manual
resample to the target rate when the native rate differs. -/
def strategy3 (f : AudioFile) : Option (Waveform × Nat) :=
  match f.librosaNative with
  | some (w, sr) =>
      if sr ≠ target_sample_rate then
        (if 0 < f.nativeResampled.length
         then some (f.nativeResampled, target_sample_rate) else none)
      else if 0 < w.length then some (w, sr) else none
  | none => none

/-- AudioLoader.load_audio, lines 33-92.  la / pa are the module-level
LIBROSA_AVAILABLE / PYDUB_AVAILABLE flags; a strategy is attempted (and
counted) only when its backend is available.  The existence and extension
gates run before any strategy. -/
def load_audio (la pa : Bool) (f : AudioFile) : LoadResult :=
  if f.present = false then
    ⟨.error (.fileNotFound ("Audio file not found: " ++ f.path)), 0⟩
  else if (supported_formats.contains f.ext) = false then
    ⟨.error (.unsupportedFormat ("Unsupported audio format: " ++ f.ext)), 0⟩
  else
    match (if la then strategy1 f else none) with
    | some r => ⟨.ok r, if la then 1 else 0⟩
    | none =>
      match (if pa then strategy2 f else none) with
      | some r => ⟨.ok r, (if la then 1 else 0) + (if pa then 1 else 0)⟩
      | none =>
        match (if la then strategy3 f else none) with
        | some r =>
            ⟨.ok r, (if la then 1 else 0) + (if pa then 1 else 0) +
                    (if la then 1 else 0)⟩
        | none =>
            ⟨.error (.decodeFailed
                ("Could not load audio file " ++ f.path ++
                 " with any available method")),
             (if la then 1 else 0) + (if pa then 1 else 0) +
             (if la then 1 else 0)⟩

/-- AudioInfo dictionary of AudioLoader.get_audio_info.  The source rounds
file_size_mb to two decimals for display; the exact quotient is kept here
(no claim touches the field). -/
structure AudioInfo where
  file_path : String
  file_size_bytes : Nat
  file_size_mb : ℚ
  extension : String
  duration_sec : Option ℚ
  sample_rate : Option Nat
  channels : Option Nat
  bit_depth : Option Nat
deriving DecidableEq, Repr

/-- The info dictionary as first initialised (lines 129-138). -/
def info_base (f : AudioFile) : AudioInfo :=
  { file_path := f.path
    file_size_bytes := f.size
    file_size_mb := (f.size : ℚ) / (1024 * 1024)
    extension := f.ext
    duration_sec := none
    sample_rate := none
    channels := none
    bit_depth := none }

/-- Librosa probe of get_audio_info (lines 141-155): one try block that
first partially decodes one second (setting sample_rate and channels) and
then probes the full duration; a raise at either call leaves the remaining
fields unset but keeps the dictionary mutations already made.  The second
component counts backend calls that touched the file contents. -/
def info_librosa (la : Bool) (f : AudioFile) : AudioInfo × Nat :=
  if la then
    match f.librosaPartial with
    | none => (info_base f, 1)
    | some sr =>
      match f.durationProbe with
      | none =>
          ({ info_base f with sample_rate := some sr, channels := some 1 }, 2)
      | some d =>
          ({ info_base f with
              sample_rate := some sr,
              channels := some 1,
              duration_sec := some d }, 2)
  else (info_base f, 0)

/-- AudioLoader.get_audio_info, lines 119-168, with its pydub fallback
(lines 158-166) attempted when duration or sample rate is still unset. -/
def get_audio_info (la pa : Bool) (f : AudioFile) : AudioInfo × Nat :=
  let i1 := info_librosa la f
  if pa = true ∧ (i1.1.duration_sec = none ∨ i1.1.sample_rate = none) then
    match f.pydubSeg with
    | none => (i1.1, i1.2 + 1)
    | some seg =>
        ({ i1.1 with
            duration_sec := some ((seg.length_ms : ℚ) / 1000),
            sample_rate := some seg.frame_rate,
            channels := some seg.channels,
            bit_depth := some (seg.sample_width * 8) }, i1.2 + 1)
  else i1

/-- The validation dictionary of AudioLoader.validate_audio_file. -/
structure ValidationReport where
  is_valid : Bool
  errors : List String
  warnings : List String
  info : Option AudioInfo
  loadable : Bool
deriving DecidableEq, Repr

/-- Report plus backend call-count instrumentation: probeAttempts counts
partial decodes performed by get_audio_info, strategyAttempts counts the
full decode fallback strategies invoked through load_audio. -/
structure ValidateResult where
  report : ValidationReport
  probeAttempts : Nat
  strategyAttempts : Nat
deriving DecidableEq, Repr

/-- Size warning of validate_audio_file, lines 203-204. -/
def size_warning (f : AudioFile) : List String :=
  if 200 * 1024 * 1024 < f.size then
    ["File is very large (>200MB), analysis may be slow"]
  else []

/-- Short-audio warning, lines 219-220. -/
def short_warning (w : Waveform) : List String :=
  if w.length < 1000 then ["Audio file is very short"] else []

/-- Quiet-audio warning, lines 222-223: peak absolute amplitude below
0.001. -/
def quiet_warning (w : Waveform) : List String :=
  if (w.map (fun x => abs x)).foldr max 0 < (0.001 : ℚ) then
    ["Audio file appears to be very quiet"]
  else []

/-- AudioLoader.validate_audio_file, lines 170-231.  Existence and
emptiness are checked first; then get_audio_info runs (performing its
probes); then the size warning and the extension gate; only then is
load_audio attempted, its failure being appended as an error rather than
raised.  The outer try/except of the source makes the function total: it
always returns a report. -/
def validate_audio_file (la pa : Bool) (f : AudioFile) : ValidateResult :=
  if f.present = false then
    ⟨⟨false, ["File not found: " ++ f.path], [], none, false⟩, 0, 0⟩
  else if f.size = 0 then
    ⟨⟨false, ["File is empty"], [], none, false⟩, 0, 0⟩
  else if (supported_formats.contains f.ext) = false then
    ⟨⟨false, ["Unsupported format: " ++ f.ext], size_warning f,
      some (get_audio_info la pa f).1, false⟩,
     (get_audio_info la pa f).2, 0⟩
  else
    match (load_audio la pa f).result with
    | .ok (w, _) =>
        ⟨⟨true, [], size_warning f ++ short_warning w ++ quiet_warning w,
          some (get_audio_info la pa f).1, true⟩,
         (get_audio_info la pa f).2, (load_audio la pa f).attempts⟩
    | .error e =>
        ⟨⟨false, ["Failed to load audio: " ++ e.message], size_warning f,
          some (get_audio_info la pa f).1, false⟩,
         (get_audio_info la pa f).2, (load_audio la pa f).attempts⟩

/-- SampleAnalyzer.analyze_sample decode stage (sample_analysis.py lines
29-36): load_audio with its error wrapped, plus the redundant emptiness
re-check. -/
def analyze_sample_load (la pa : Bool) (f : AudioFile) :
    Except String (Waveform × Nat) × Nat :=
  match load_audio la pa f with
  | ⟨.error e, n⟩ => (.error ("Failed to load audio file: " ++ e.message), n)
  | ⟨.ok (w, sr), n⟩ =>
      if w.length = 0 then
        (.error "Audio file is empty or could not be loaded", n)
      else (.ok (w, sr), n)

/-- All elements of a rational list are nonnegative (Bool-valued so the
measurement side conditions stay decidable). -/
def qNonneg (l : List ℚ) : Bool := l.all (fun x => decide (0 ≤ x))

/-- Time-signature heuristic of SampleAnalyzer._extract_musical_features
(sample_analysis.py lines 105-119): guarded by Python truthiness of the
tempo estimate, so both a missing estimate (beat_track raised) and a 0.0
estimate fall to the default 4. -/
def musical_time_signature (tempo_bpm : Option ℚ) : Nat :=
  match tempo_bpm with
  | none => 4
  | some tempo =>
    if tempo = 0 then 4
    else if tempo < 80 then 3
    else if tempo < 120 then 4
    else 6

/-- np.diff: consecutive differences, later minus earlier. -/
def npDiff (l : List ℚ) : List ℚ := List.zipWith (fun b a => b - a) l.tail l

/-- Time-signature heuristic of extract_audio_features (features.py lines
110-124), keyed on the mean consecutive-beat interval. -/
def mix_time_signature (beats : List ℚ) : Nat :=
  if 0 < (npDiff beats).length then
    (if qMean (npDiff beats) < (0.5 : ℚ) then 4
     else if qMean (npDiff beats) < (0.75 : ℚ) then 3
     else 6)
  else 4

/-- SampleAnalyzer._determine_category, lines 288-302: first matching rule
wins.  The numpy nan that the harmonic ratio takes on an all-silent input
compares false against 0.7 exactly as the rational 0 does. -/
def determine_category (harmonic_ratio zero_crossing_rate energy : ℚ) :
    String :=
  if (0.7 : ℚ) < harmonic_ratio then "musical"
  else if (0.15 : ℚ) < zero_crossing_rate then "percussion"
  else if energy < (0.01 : ℚ) then "ambient"
  else "fx"

/-- SampleAnalyzer._extract_tags, lines 304-339, over the numeric feature
values the method reads from the features dictionary. -/
def extract_tags (spectral_centroid energy complexity : ℚ)
    (category : String) : List String :=
  (if (0.7 : ℚ) < spectral_centroid then ["bright"]
   else if spectral_centroid < (0.3 : ℚ) then ["dark"] else []) ++
  (if (0.1 : ℚ) < energy then ["loud"]
   else if energy < (0.01 : ℚ) then ["quiet"] else []) ++
  (if (0.7 : ℚ) < complexity then ["complex"]
   else if complexity < (0.3 : ℚ) then ["simple"] else []) ++
  (if category = "musical" then ["tonal", "harmonic"]
   else if category = "percussion" then ["rhythmic", "percussive"]
   else if category = "ambient" then ["atmospheric", "textural"]
   else if category = "fx" then ["effect", "impact"]
   else [])

/-- Harmonic ratio of SampleAnalyzer._extract_harmonic_features, line 203,
over the two components that librosa.effects.hpss returned. -/
def harmonic_ratio_of (y_harmonic y_percussive : List ℚ) : ℚ :=
  qSumAbs y_harmonic / (qSumAbs y_harmonic + qSumAbs y_percussive)

/-- Outcomes of the librosa calls made by
SampleAnalyzer._extract_perceptual_features (lines 226-260); an Option is
none exactly when that call raises.  The two std fields record
np.std of the centroid and rolloff frame sequences (numpy cannot raise on
a bound array, so they carry no Option). -/
structure PerceptualPrimitives where
  rmsFrames : Option (List ℚ)
  centroidFrames : Option (List ℚ)
  rolloffFrames : Option (List ℚ)
  zcrFrames : Option (List ℚ)
  centroidStd : ℚ
  rolloffStd : ℚ
deriving DecidableEq, Repr

/-- Guarantees the external measurements carry: RMS values, spectral
frequencies, zero-crossing fractions and standard deviations are all
nonnegative. -/
def PerceptualValid (p : PerceptualPrimitives) : Bool :=
  p.rmsFrames.all qNonneg && p.centroidFrames.all qNonneg &&
  p.rolloffFrames.all qNonneg && p.zcrFrames.all qNonneg &&
  decide (0 ≤ p.centroidStd) && decide (0 ≤ p.rolloffStd)

/-- The dB conversion 20 * np.log10(m + 1e-10) of lines 233 and
features.py line 92, over the reals. -/
noncomputable def loudness_db (m : ℚ) : ℝ :=
  20 * Real.logb 10 ((m : ℝ) + 1 / 10 ^ 10)

/-- Loudness try-block of _extract_perceptual_features (lines 231-236):
the single fallible step is the librosa.feature.rms call that also binds
the rms array; on a raise the field defaults to -60.0. -/
noncomputable def perceptual_loudness (p : PerceptualPrimitives) : ℝ :=
  match p.rmsFrames with
  | some rms => loudness_db (qMean rms)
  | none => -60

/-- Energy try-block (lines 239-243): np.mean(rms) reads the rms binding
created inside the loudness try-block, so it raises (NameError) exactly
when that binding was never made, and then defaults to 0.0. -/
def perceptual_energy (p : PerceptualPrimitives) : ℚ :=
  match p.rmsFrames with
  | some rms => qMean rms
  | none => 0

/-- Complexity try-block (lines 246-258): coefficient of variation of the
centroid and rolloff frames plus mean zero-crossing rate, clipped to 1;
default 0.5 when any of the three librosa calls raises. -/
def perceptual_complexity (p : PerceptualPrimitives) : ℚ :=
  match p.centroidFrames, p.rolloffFrames, p.zcrFrames with
  | some c, some r, some z =>
      min 1 ((p.centroidStd / qMean c) * (0.5 : ℚ) +
             (p.rolloffStd / qMean r) * (0.3 : ℚ) +
             qMean z * (0.2 : ℚ))
  | _, _, _ => (0.5 : ℚ)

/-- SampleAnalyzer._calculate_intensity, lines 358-369. -/
noncomputable def calculate_intensity (energy complexity : ℚ)
    (loudness : ℝ) : ℝ :=
  min 1 ((energy : ℝ) * 0.4 + (complexity : ℝ) * 0.3 +
         max 0 ((loudness + 60) / 60) * 0.3)

/-- Intensity of a sample as the pipeline computes it: _calculate_intensity
applied to the perceptual feature fields. -/
noncomputable def sample_intensity (p : PerceptualPrimitives) : ℝ :=
  calculate_intensity (perceptual_energy p) (perceptual_complexity p)
    (perceptual_loudness p)

/-- Outcomes of the librosa/numpy measurements consumed by
extract_audio_features (features.py lines 6-126).  This mix profile has no
per-group try blocks, so every field is a plain value; the std fields
record np.std of the centroid frames and of the spectral flatness frames,
and mfccVariances records np.var(mfccs, axis=1). -/
structure MixPrimitives where
  tempo : ℚ
  rmsFrames : List ℚ
  centroidFrames : List ℚ
  centroidStd : ℚ
  rolloffFrames : List ℚ
  bandwidthFrames : List ℚ
  contrastMean : ℚ
  mfccVariances : List ℚ
  flatnessStd : ℚ
  harmonicMean : ℚ
  rawMean : ℚ
  sr : Nat
deriving DecidableEq, Repr

/-- Guarantees of the external measurements used in the lower-bound
arguments: tempo, RMS, centroid and bandwidth values, variances and
standard deviations are nonnegative. -/
def MixValid (p : MixPrimitives) : Bool :=
  decide (0 ≤ p.tempo) && qNonneg p.rmsFrames && qNonneg p.centroidFrames &&
  decide (0 ≤ p.centroidStd) && qNonneg p.bandwidthFrames &&
  qNonneg p.mfccVariances && decide (0 ≤ p.flatnessStd)

/-- Danceability, features.py lines 21-31 (the round to three decimals is
display-only and dropped; it cannot move a value across 0 or 1). -/
def danceability (p : MixPrimitives) : ℚ :=
  min 1 ((p.tempo / 120) * (0.3 : ℚ) +
         (qMean p.rmsFrames / (0.1 : ℚ)) * (0.4 : ℚ) +
         (p.centroidStd / qMean p.centroidFrames) * (0.3 : ℚ))

/-- Valence, features.py lines 42-52: note the harmonic ratio here is
mean(harmonic) / mean(y), a signed quantity. -/
def valence (p : MixPrimitives) : ℚ :=
  min 1 ((p.harmonicMean / p.rawMean) * (0.4 : ℚ) +
         (1 - qMean p.rolloffFrames / ((p.sr : ℚ) / 2)) * (0.3 : ℚ) +
         (1 - qMean p.bandwidthFrames / 2000) * (0.3 : ℚ))

/-- Acousticness, features.py lines 57-63. -/
def acousticness (p : MixPrimitives) : ℚ :=
  min 1 ((1 - qMean p.centroidFrames / 2000) * (0.5 : ℚ) +
         (p.contrastMean / 10) * (0.5 : ℚ))

/-- Instrumentalness, features.py lines 68-73. -/
def instrumentalness (p : MixPrimitives) : ℚ :=
  min 1 (qMean p.mfccVariances / 100)

/-- Liveness, features.py lines 78-80. -/
def liveness (p : MixPrimitives) : ℚ :=
  min 1 (p.flatnessStd * 10)

/-- Speechiness, features.py lines 85-88. -/
def speechiness (p : MixPrimitives) : ℚ :=
  min 1 ((qMean p.bandwidthFrames / 2000) * (qMean p.centroidFrames / 2000) * 2)

/-- A file that exists and is non-empty but carries an extension outside
the allow-list, on which the info probes would succeed. -/
def mislabeled_file : AudioFile :=
  { path := "notes.txt", present := true, size := 5, ext := ".txt",
    librosaTarget := none, librosaNative := none, nativeResampled := [],
    pydubSeg := none, librosaPartial := some 44100, durationProbe := some 1 }

/-- C1, counterexample: on an existing, non-empty file with an unsupported
extension, validate_audio_file does append the unsupported-format error,
but only after get_audio_info has already attempted two partial decodes of
the file contents (the bounded librosa load and the duration probe), so the
claim that the failure happens before any decode attempt, full or partial,
is false for the validate path. -/
theorem c1_counterexample :
    supported_formats.contains mislabeled_file.ext = false ∧
    mislabeled_file.present = true ∧ 0 < mislabeled_file.size ∧
    (validate_audio_file true true mislabeled_file).report.errors =
      ["Unsupported format: .txt"] ∧
    (validate_audio_file true true mislabeled_file).probeAttempts = 2 := by
  decide

/-- C1, amended: for every existing, non-empty file whose lower-cased
extension is outside the allow-list, load_audio (the analyze path) raises
the unsupported-format error with zero decode attempts of any kind, and
validate_audio_file reports exactly the unsupported-format error with
is_valid false and never invokes any of the three full decode strategies
(its get_audio_info probe, however, runs before the extension gate). -/
theorem c1_unsupported_gate_amended (la pa : Bool) (f : AudioFile)
    (hp : f.present = true) (hsz : 0 < f.size)
    (hext : supported_formats.contains f.ext = false) :
    load_audio la pa f =
      ⟨.error (.unsupportedFormat ("Unsupported audio format: " ++ f.ext)), 0⟩ ∧
    (validate_audio_file la pa f).report.errors =
      ["Unsupported format: " ++ f.ext] ∧
    (validate_audio_file la pa f).report.is_valid = false ∧
    (validate_audio_file la pa f).strategyAttempts = 0 := by
  have hsz' : f.size ≠ 0 := Nat.pos_iff_ne_zero.mp hsz
  have hmem : f.ext ∉ supported_formats := by simpa using hext
  refine ⟨?_, ?_, ?_, ?_⟩ <;>
    simp [load_audio, validate_audio_file, hp, hsz', hext, hmem]

/-- C1, witness: the amended statement at the concrete mislabeled file. -/
theorem c1_unsupported_gate_witness :
    load_audio true true mislabeled_file =
      ⟨.error (.unsupportedFormat
        ("Unsupported audio format: " ++ mislabeled_file.ext)), 0⟩ ∧
    (validate_audio_file true true mislabeled_file).report.errors =
      ["Unsupported format: " ++ mislabeled_file.ext] ∧
    (validate_audio_file true true mislabeled_file).report.is_valid = false ∧
    (validate_audio_file true true mislabeled_file).strategyAttempts = 0 :=
  c1_unsupported_gate_amended true true mislabeled_file rfl (by decide)
    (by decide)

/-- A supported-extension file on which every decode backend raises. -/
def corrupt_wav : AudioFile :=
  { path := "corrupt.wav", present := true, size := 7, ext := ".wav",
    librosaTarget := none, librosaNative := none, nativeResampled := [],
    pydubSeg := none, librosaPartial := none, durationProbe := none }

/-- C2, counterexample: when all three strategies are exhausted the raised
error names the file path but its message contains no digit at all, so it
does not name the number of strategies tried, contrary to the claim. -/
theorem c2_counterexample :
    load_audio true true corrupt_wav =
      ⟨.error (.decodeFailed
        "Could not load audio file corrupt.wav with any available method"),
       3⟩ ∧
    ("Could not load audio file corrupt.wav with any available method"
      ).toList.all (fun c => !c.isDigit) = true := by
  decide

/-- C2, amended: with both backends available, load_audio on an existing
supported-extension file attempts the three strategies in order, advancing
exactly when the previous one raised or yielded an empty waveform; the
pydub strategy normalises by the bit-depth-aware divisor (32768 for
16-bit, 2^31 for 32-bit, 128 otherwise); and when all three are exhausted
it raises a single error whose message names the file path (but not the
number of strategies tried). -/
theorem c2_fallback_chain_amended (f : AudioFile) (hp : f.present = true)
    (hs : supported_formats.contains f.ext = true) :
    (∀ r, strategy1 f = some r → load_audio true true f = ⟨.ok r, 1⟩) ∧
    (∀ r, strategy1 f = none → strategy2 f = some r →
        load_audio true true f = ⟨.ok r, 2⟩) ∧
    (∀ r, strategy1 f = none → strategy2 f = none → strategy3 f = some r →
        load_audio true true f = ⟨.ok r, 3⟩) ∧
    (strategy1 f = none → strategy2 f = none → strategy3 f = none →
        load_audio true true f =
          ⟨.error (.decodeFailed ("Could not load audio file " ++ f.path ++
              " with any available method")), 3⟩) ∧
    (∀ seg, load_with_pydub seg =
        (seg.samples.map (fun s =>
            s / (if seg.sample_width = 2 then (32768 : ℚ)
                 else if seg.sample_width = 4 then 2147483648
                 else 128)),
         target_sample_rate)) := by
  have hmem : f.ext ∈ supported_formats := by simpa using hs
  refine ⟨?_, ?_, ?_, ?_, fun seg => rfl⟩
  · intro r h1
    simp [load_audio, hp, hs, hmem, h1]
  · intro r h1 h2
    simp [load_audio, hp, hs, hmem, h1, h2]
  · intro r h1 h2 h3
    simp [load_audio, hp, hs, hmem, h1, h2, h3]
  · intro h1 h2 h3
    simp [load_audio, hp, hs, hmem, h1, h2, h3]

/-- A supported file whose first strategy already succeeds. -/
def clean_wav : AudioFile :=
  { path := "ok.wav", present := true, size := 9, ext := ".wav",
    librosaTarget := some [1], librosaNative := none, nativeResampled := [],
    pydubSeg := none, librosaPartial := none, durationProbe := none }

/-- C2, witness: the first conjunct of the amended chain at a concrete
file whose primary decode succeeds with one attempt. -/
theorem c2_fallback_chain_witness :
    load_audio true true clean_wav = ⟨.ok ([1], target_sample_rate), 1⟩ :=
  (c2_fallback_chain_amended clean_wav rfl (by decide)).1
    ([1], target_sample_rate) (by decide)

/-- A supported-extension, existing, non-empty file that no strategy can
decode. -/
def corrupted_file : AudioFile :=
  { path := "broken.wav", present := true, size := 4, ext := ".wav",
    librosaTarget := none, librosaNative := none, nativeResampled := [],
    pydubSeg := none, librosaPartial := none, durationProbe := none }

/-- C4: for every existing, non-empty, supported-extension file that no
decode strategy can load, validate_audio_file returns (it cannot raise:
the embedding is a total function, mirroring the outer try/except) a
report with is_valid false and a non-empty errors list. -/
theorem c4_corrupted_validate (la pa : Bool) (f : AudioFile)
    (hp : f.present = true) (hsz : 0 < f.size)
    (hext : supported_formats.contains f.ext = true)
    (hfail : (load_audio la pa f).result.isOk = false) :
    (validate_audio_file la pa f).report.is_valid = false ∧
    (validate_audio_file la pa f).report.errors ≠ [] := by
  have hsz' : f.size ≠ 0 := Nat.pos_iff_ne_zero.mp hsz
  have hmem : f.ext ∈ supported_formats := by simpa using hext
  rcases hres : (load_audio la pa f).result with e | v
  · simp [validate_audio_file, hp, hsz', hmem, hres]
  · rw [hres] at hfail
    simp [Except.isOk, Except.toBool] at hfail

/-- C4, witness: the statement at a concrete corrupted file. -/
theorem c4_corrupted_validate_witness :
    (validate_audio_file true true corrupted_file).report.is_valid = false ∧
    (validate_audio_file true true corrupted_file).report.errors ≠ [] :=
  c4_corrupted_validate true true corrupted_file rfl (by decide) (by decide)
    (by decide)

/-- C9: in every report validate_audio_file can return, is_valid equals
loadable: both are false in every early-return branch and are set to true
together in the single successful-load branch. -/
theorem c9_is_valid_eq_loadable (la pa : Bool) (f : AudioFile) :
    (validate_audio_file la pa f).report.is_valid =
    (validate_audio_file la pa f).report.loadable := by
  unfold validate_audio_file
  split
  · rfl
  · split
    · rfl
    · split
      · rfl
      · split <;> rfl

/-- C6: the musical time signature is a pure function of the estimated
tempo with thresholds 80 and 120, defaulting to 4 when the estimate is
missing or falsy (a 0.0 tempo fails the Python truthiness guard). -/
theorem c6_time_signature_tempo :
    (∀ t : ℚ, t ≠ 0 → t < 80 → musical_time_signature (some t) = 3) ∧
    (∀ t : ℚ, 80 ≤ t → t < 120 → musical_time_signature (some t) = 4) ∧
    (∀ t : ℚ, 120 ≤ t → musical_time_signature (some t) = 6) ∧
    musical_time_signature none = 4 ∧
    musical_time_signature (some 0) = 4 := by
  refine ⟨?_, ?_, ?_, rfl, by simp [musical_time_signature]⟩
  · intro t h0 h80
    simp [musical_time_signature, h0, h80]
  · intro t h80 h120
    have h0 : t ≠ 0 := by intro h; rw [h] at h80; norm_num at h80
    have h1 : ¬ t < 80 := not_lt.mpr h80
    simp [musical_time_signature, h0, h1, h120]
  · intro t h120
    have h0 : t ≠ 0 := by intro h; rw [h] at h120; norm_num at h120
    have h1 : ¬ t < 80 := by intro h; linarith
    have h2 : ¬ t < 120 := by intro h; linarith
    simp [musical_time_signature, h0, h1, h2]

/-- C6, witness: one concrete tempo in each branch. -/
theorem c6_time_signature_tempo_witness :
    musical_time_signature (some 60) = 3 ∧
    musical_time_signature (some 100) = 4 ∧
    musical_time_signature (some 140) = 6 :=
  ⟨c6_time_signature_tempo.1 60 (by norm_num) (by norm_num),
   c6_time_signature_tempo.2.1 100 (by norm_num) (by norm_num),
   c6_time_signature_tempo.2.2.1 140 (by norm_num)⟩

/-- C7: the mix-profile time signature is a pure function of the mean
consecutive-beat interval with thresholds 0.5 and 0.75 and mapping
4 / 3 / 6, defaulting to 4 when fewer than two beats were tracked. -/
theorem c7_time_signature_mix :
    (∀ beats : List ℚ, beats.length < 2 → mix_time_signature beats = 4) ∧
    (∀ beats : List ℚ, 0 < (npDiff beats).length →
        qMean (npDiff beats) < (0.5 : ℚ) → mix_time_signature beats = 4) ∧
    (∀ beats : List ℚ, 0 < (npDiff beats).length →
        (0.5 : ℚ) ≤ qMean (npDiff beats) →
        qMean (npDiff beats) < (0.75 : ℚ) → mix_time_signature beats = 3) ∧
    (∀ beats : List ℚ, 0 < (npDiff beats).length →
        (0.75 : ℚ) ≤ qMean (npDiff beats) → mix_time_signature beats = 6) := by
  have hlen : ∀ l : List ℚ, (npDiff l).length = l.length - 1 := by
    intro l
    simp only [npDiff, List.length_zipWith, List.length_tail]
    exact min_eq_left (Nat.sub_le _ _)
  refine ⟨?_, ?_, ?_, ?_⟩
  · intro beats hb
    have h0 : ¬ 0 < (npDiff beats).length := by rw [hlen]; omega
    simp [mix_time_signature, h0]
  · intro beats h1 h2
    simp [mix_time_signature, h1, h2]
  · intro beats h1 h2 h3
    simp [mix_time_signature, h1, not_lt.mpr h2, h3]
  · intro beats h1 h2
    have h3 : ¬ qMean (npDiff beats) < (0.5 : ℚ) := by
      intro h; nlinarith
    have h4 : ¬ qMean (npDiff beats) < (0.75 : ℚ) := not_lt.mpr h2
    simp [mix_time_signature, h1, h3, h4]

/-- C7, witness: concrete beat lists in the default and the 6 branch. -/
theorem c7_time_signature_mix_witness :
    mix_time_signature [(3 : ℚ)] = 4 ∧ mix_time_signature [0, 1] = 6 :=
  ⟨c7_time_signature_mix.1 [(3 : ℚ)] (by norm_num),
   c7_time_signature_mix.2.2.2 [0, 1] (by norm_num [npDiff])
     (by norm_num [qMean, npDiff])⟩

/-- C8: for every numeric feature triple and every category string, the
tags list is duplicate-free: the paired conditional tags are mutually
exclusive by the if/elif structure, and the category-specific constants
are disjoint from all conditional tags. -/
theorem c8_tags_nodup (spectral_centroid energy complexity : ℚ)
    (category : String) :
    (extract_tags spectral_centroid energy complexity category).Nodup := by
  unfold extract_tags
  split_ifs <;> decide

theorem qNonneg_iff {l : List ℚ} : qNonneg l = true ↔ ∀ x ∈ l, 0 ≤ x := by
  simp [qNonneg, List.all_eq_true]

theorem qMean_nonneg {l : List ℚ} (h : ∀ x ∈ l, 0 ≤ x) : 0 ≤ qMean l :=
  div_nonneg (List.sum_nonneg h) (Nat.cast_nonneg _)

theorem qMean_zero {l : List ℚ} (h : ∀ x ∈ l, x = 0) : qMean l = 0 := by
  rw [qMean, List.sum_eq_zero h, zero_div]

theorem qSumAbs_zero {l : List ℚ} (h : ∀ x ∈ l, x = 0) : qSumAbs l = 0 := by
  rw [qSumAbs, List.sum_eq_zero]
  intro x hx
  rcases List.mem_map.mp hx with ⟨y, hy, rfl⟩
  rw [h y hy, abs_zero]

/-- At a mean RMS of exactly 0 the dB formula bottoms out at the floor:
20 * log10(1e-10) = -200. -/
theorem loudness_db_zero : loudness_db 0 = -200 := by
  have h10 : Real.log 10 ≠ 0 := ne_of_gt (Real.log_pos (by norm_num))
  unfold loudness_db Real.logb
  rw [Rat.cast_zero, zero_add, one_div, Real.log_inv, Real.log_pow]
  push_cast
  field_simp
  ring

theorem perceptual_energy_nonneg (pp : PerceptualPrimitives)
    (h : pp.rmsFrames.all qNonneg = true) : 0 ≤ perceptual_energy pp := by
  cases hr : pp.rmsFrames with
  | none => simp [perceptual_energy, hr]
  | some r =>
    rw [hr] at h
    simp only [Option.all] at h
    simp only [perceptual_energy, hr]
    exact qMean_nonneg (qNonneg_iff.mp h)

theorem perceptual_complexity_bounds (pp : PerceptualPrimitives)
    (hc : pp.centroidFrames.all qNonneg = true)
    (hrl : pp.rolloffFrames.all qNonneg = true)
    (hz : pp.zcrFrames.all qNonneg = true)
    (hcs : 0 ≤ pp.centroidStd) (hrs : 0 ≤ pp.rolloffStd) :
    0 ≤ perceptual_complexity pp ∧ perceptual_complexity pp ≤ 1 := by
  cases h1 : pp.centroidFrames with
  | none => simp only [perceptual_complexity, h1]; norm_num
  | some c =>
    cases h2 : pp.rolloffFrames with
    | none => simp only [perceptual_complexity, h1, h2]; norm_num
    | some r =>
      cases h3 : pp.zcrFrames with
      | none => simp only [perceptual_complexity, h1, h2, h3]; norm_num
      | some z =>
        rw [h1] at hc; rw [h2] at hrl; rw [h3] at hz
        simp only [Option.all] at hc hrl hz
        have hmc : 0 ≤ qMean c := qMean_nonneg (qNonneg_iff.mp hc)
        have hmr : 0 ≤ qMean r := qMean_nonneg (qNonneg_iff.mp hrl)
        have hmz : 0 ≤ qMean z := qMean_nonneg (qNonneg_iff.mp hz)
        simp only [perceptual_complexity, h1, h2, h3]
        constructor
        · refine le_min (by norm_num) ?_
          have t1 : 0 ≤ pp.centroidStd / qMean c := div_nonneg hcs hmc
          have t2 : 0 ≤ pp.rolloffStd / qMean r := div_nonneg hrs hmr
          exact add_nonneg (add_nonneg (mul_nonneg t1 (by norm_num))
            (mul_nonneg t2 (by norm_num))) (mul_nonneg hmz (by norm_num))
        · exact min_le_left _ _

theorem calculate_intensity_bounds (e c : ℚ) (L : ℝ)
    (he : 0 ≤ e) (hc : 0 ≤ c) :
    0 ≤ calculate_intensity e c L ∧ calculate_intensity e c L ≤ 1 := by
  unfold calculate_intensity
  constructor
  · refine le_min (by norm_num) ?_
    have h1 : (0 : ℝ) ≤ (e : ℝ) := by exact_mod_cast he
    have h2 : (0 : ℝ) ≤ (c : ℝ) := by exact_mod_cast hc
    have h3 : (0 : ℝ) ≤ max 0 ((L + 60) / 60) := le_max_left 0 _
    exact add_nonneg (add_nonneg (mul_nonneg h1 (by norm_num))
      (mul_nonneg h2 (by norm_num))) (mul_nonneg h3 (by norm_num))
  · exact min_le_left _ _

/-- C3, amended: under the nonnegativity guarantees of the external
measurements, intensity, danceability, instrumentalness, liveness and
speechiness all lie in [0, 1]; valence and acousticness are bounded above
by 1 by their min(1, ...) but carry no lower bound (see the
counterexample). -/
theorem c3_bounds_amended (pp : PerceptualPrimitives) (pm : MixPrimitives)
    (hv : PerceptualValid pp = true) (hm : MixValid pm = true) :
    (0 ≤ sample_intensity pp ∧ sample_intensity pp ≤ 1) ∧
    (0 ≤ danceability pm ∧ danceability pm ≤ 1) ∧
    (0 ≤ instrumentalness pm ∧ instrumentalness pm ≤ 1) ∧
    (0 ≤ liveness pm ∧ liveness pm ≤ 1) ∧
    (0 ≤ speechiness pm ∧ speechiness pm ≤ 1) ∧
    valence pm ≤ 1 ∧ acousticness pm ≤ 1 := by
  simp only [PerceptualValid, MixValid, Bool.and_eq_true,
    decide_eq_true_eq] at hv hm
  obtain ⟨⟨⟨⟨⟨hrms, hcen⟩, hrol⟩, hzcr⟩, hcs⟩, hrs⟩ := hv
  obtain ⟨⟨⟨⟨⟨⟨htempo, hmrms⟩, hmcen⟩, hmcs⟩, hmbw⟩, hmvar⟩, hmfl⟩ := hm
  refine ⟨?_, ?_, ?_, ?_, ?_,
    by unfold valence; exact min_le_left _ _,
    by unfold acousticness; exact min_le_left _ _⟩
  · unfold sample_intensity
    exact calculate_intensity_bounds _ _ _
      (perceptual_energy_nonneg pp hrms)
      (perceptual_complexity_bounds pp hcen hrol hzcr hcs hrs).1
  · unfold danceability
    constructor
    · refine le_min (by norm_num) ?_
      have t1 : 0 ≤ pm.tempo / 120 := div_nonneg htempo (by norm_num)
      have t2 : 0 ≤ qMean pm.rmsFrames / (0.1 : ℚ) :=
        div_nonneg (qMean_nonneg (qNonneg_iff.mp hmrms)) (by norm_num)
      have t3 : 0 ≤ pm.centroidStd / qMean pm.centroidFrames :=
        div_nonneg hmcs (qMean_nonneg (qNonneg_iff.mp hmcen))
      exact add_nonneg (add_nonneg (mul_nonneg t1 (by norm_num))
        (mul_nonneg t2 (by norm_num))) (mul_nonneg t3 (by norm_num))
    · exact min_le_left _ _
  · unfold instrumentalness
    exact ⟨le_min (by norm_num)
      (div_nonneg (qMean_nonneg (qNonneg_iff.mp hmvar)) (by norm_num)),
      min_le_left _ _⟩
  · unfold liveness
    exact ⟨le_min (by norm_num) (mul_nonneg hmfl (by norm_num)),
      min_le_left _ _⟩
  · unfold speechiness
    exact ⟨le_min (by norm_num)
      (mul_nonneg (mul_nonneg
        (div_nonneg (qMean_nonneg (qNonneg_iff.mp hmbw)) (by norm_num))
        (div_nonneg (qMean_nonneg (qNonneg_iff.mp hmcen)) (by norm_num)))
        (by norm_num)),
      min_le_left _ _⟩

/-- Perceptual primitives of a run where every librosa call raised. -/
def idle_perceptual : PerceptualPrimitives :=
  { rmsFrames := none, centroidFrames := none, rolloffFrames := none,
    zcrFrames := none, centroidStd := 0, rolloffStd := 0 }

/-- Mix primitives of a degenerate but valid measurement set. -/
def idle_mix : MixPrimitives :=
  { tempo := 0, rmsFrames := [], centroidFrames := [], centroidStd := 0,
    rolloffFrames := [], bandwidthFrames := [], contrastMean := 0,
    mfccVariances := [], flatnessStd := 0, harmonicMean := 0, rawMean := 0,
    sr := 22050 }

/-- C3, witness: the amended bounds at concrete valid measurements. -/
theorem c3_bounds_witness :
    (0 ≤ sample_intensity idle_perceptual ∧
      sample_intensity idle_perceptual ≤ 1) ∧
    (0 ≤ danceability idle_mix ∧ danceability idle_mix ≤ 1) ∧
    (0 ≤ instrumentalness idle_mix ∧ instrumentalness idle_mix ≤ 1) ∧
    (0 ≤ liveness idle_mix ∧ liveness idle_mix ≤ 1) ∧
    (0 ≤ speechiness idle_mix ∧ speechiness idle_mix ≤ 1) ∧
    valence idle_mix ≤ 1 ∧ acousticness idle_mix ≤ 1 :=
  c3_bounds_amended idle_perceptual idle_mix
    (by norm_num [PerceptualValid, idle_perceptual, Option.all])
    (by norm_num [MixValid, idle_mix, qNonneg])

/-- Valid measurements of a plausibly bright, wide-band signal: spectral
rolloff at the Nyquist frequency and mean bandwidth 4000 Hz. -/
def wideband_mix : MixPrimitives :=
  { tempo := 0, rmsFrames := [], centroidFrames := [11025], centroidStd := 0,
    rolloffFrames := [11025], bandwidthFrames := [4000], contrastMean := 0,
    mfccVariances := [], flatnessStd := 0, harmonicMean := 0, rawMean := 1,
    sr := 22050 }

/-- The same measurements with a mean spectral centroid of 6000 Hz. -/
def sharp_mix : MixPrimitives :=
  { wideband_mix with centroidFrames := [6000] }

/-- C3, counterexample: valence and acousticness are min(1, ...) fields of
the mix profile yet take negative values at valid measurements (mean
bandwidth above 2000 Hz, respectively mean centroid above 2000 Hz), so the
closed interval [0, 1] of the claim does not hold. -/
theorem c3_counterexample :
    MixValid wideband_mix = true ∧ valence wideband_mix < 0 ∧
    MixValid sharp_mix = true ∧ acousticness sharp_mix < 0 := by
  refine ⟨?_, ?_, ?_, ?_⟩
  · norm_num [MixValid, wideband_mix, qNonneg]
  · norm_num [valence, wideband_mix, qMean, min_def]
  · norm_num [MixValid, sharp_mix, wideband_mix, qNonneg]
  · norm_num [acousticness, sharp_mix, wideband_mix, qMean, min_def]

/-- C5, amended: for an all-silent decoded waveform the perceptual
extractor reports energy exactly 0 and a loudness of -200 dB — the value
the 1e-10 floor actually bounds, 20 * log10(1e-10), not -60 (which is the
failure default of the loudness group) — and the classifier assigns the
category "ambient" (silence gives harmonic ratio 0/0, which fails the
musical test, a zero crossing rate of 0, which fails the percussion test,
and energy 0 below the 0.01 ambient threshold). -/
theorem c5_silence_amended (pp : PerceptualPrimitives)
    (rms yh yp z : List ℚ)
    (hr : pp.rmsFrames = some rms) (h0 : ∀ x ∈ rms, x = 0)
    (hh : ∀ x ∈ yh, x = 0) (hp2 : ∀ x ∈ yp, x = 0)
    (hz : ∀ x ∈ z, x = 0) :
    perceptual_energy pp = 0 ∧
    perceptual_loudness pp = -200 ∧
    determine_category (harmonic_ratio_of yh yp) (qMean z)
      (perceptual_energy pp) = "ambient" := by
  have he : perceptual_energy pp = 0 := by
    simp only [perceptual_energy, hr]
    exact qMean_zero h0
  have hl : perceptual_loudness pp = -200 := by
    simp only [perceptual_loudness, hr, qMean_zero h0]
    exact loudness_db_zero
  have hhr : harmonic_ratio_of yh yp = 0 := by
    rw [harmonic_ratio_of, qSumAbs_zero hh, qSumAbs_zero hp2]
    norm_num
  have hqz : qMean z = 0 := qMean_zero hz
  refine ⟨he, hl, ?_⟩
  rw [hhr, hqz, he]
  norm_num [determine_category]

/-- Perceptual primitives of a one-second silent file at 22050 Hz: the
librosa RMS call returns 44 frames, all zero. -/
def silent_perceptual : PerceptualPrimitives :=
  { rmsFrames := some (List.replicate 44 0), centroidFrames := none,
    rolloffFrames := none, zcrFrames := none, centroidStd := 0,
    rolloffStd := 0 }

/-- C5, witness: the amended statement at the concrete silent input. -/
theorem c5_silence_witness :
    perceptual_energy silent_perceptual = 0 ∧
    perceptual_loudness silent_perceptual = -200 ∧
    determine_category
      (harmonic_ratio_of (List.replicate 22050 0) (List.replicate 22050 0))
      (qMean (List.replicate 43 0))
      (perceptual_energy silent_perceptual) = "ambient" :=
  c5_silence_amended silent_perceptual (List.replicate 44 0)
    (List.replicate 22050 0) (List.replicate 22050 0) (List.replicate 43 0)
    rfl (fun _ hx => List.eq_of_mem_replicate hx)
    (fun _ hx => List.eq_of_mem_replicate hx)
    (fun _ hx => List.eq_of_mem_replicate hx)
    (fun _ hx => List.eq_of_mem_replicate hx)

/-- C5, counterexample: at the concrete silent input the loudness the
extractor computes is -200 dB, not a value approaching -60 dB as the claim
states; -60 is only the failure default. -/
theorem c5_counterexample :
    perceptual_loudness silent_perceptual = -200 ∧ ((-200 : ℝ) ≠ -60) := by
  constructor
  · have h0 : qMean (List.replicate 44 (0 : ℚ)) = 0 :=
      qMean_zero (fun _ hx => List.eq_of_mem_replicate hx)
    simp only [perceptual_loudness, silent_perceptual, h0]
    exact loudness_db_zero
  · norm_num

/-- C10: energy and loudness fail together, not independently.  The energy
try-block reads the rms binding created inside the loudness try-block, so
whenever the loudness group falls back to its default -60.0 (the rms call
raised), energy necessarily falls back to its default 0.0; and whenever
the rms call succeeded, energy is the computed mean, never the default
path. -/
theorem c10_energy_loudness_coupling (pp : PerceptualPrimitives) :
    (pp.rmsFrames = none →
      perceptual_loudness pp = -60 ∧ perceptual_energy pp = 0) ∧
    (∀ rms, pp.rmsFrames = some rms →
      perceptual_loudness pp = loudness_db (qMean rms) ∧
      perceptual_energy pp = qMean rms) := by
  constructor
  · intro h
    simp [perceptual_loudness, perceptual_energy, h]
  · intro rms h
    simp [perceptual_loudness, perceptual_energy, h]

/-- C10, witness: the coupling at a run whose rms call raised. -/
theorem c10_energy_loudness_coupling_witness :
    perceptual_loudness idle_perceptual = -60 ∧
    perceptual_energy idle_perceptual = 0 :=
  (c10_energy_loudness_coupling idle_perceptual).1 rfl
